import Mathlib

/-!
Verification of the core logic of `nearby_subs_streamlit.py` (Sub_Station).

The development shallowly embeds the two components with real logic:

* the schema normalizer `normalize_columns` (source lines 25-70), modelled over
  a raw data-frame of string headers and row-major string cells, together with
  the in-place mutation the Python function performs on its caller's object
  (line 30 rewrites `df.columns` in place; lines 64-68 add columns to whatever
  object `df` is bound to, which is the caller's object exactly when no rename
  happened, since `DataFrame.rename` returns a copy);
* the proximity query `calculate_nearby` (source lines 110-157) together with
  the haversine distance `miles_distance` (source lines 17-23), modelled over
  lists of records with real-valued coordinates.

Machine floating point is modelled by the real numbers; `pandas` operations are
modelled by their documented observable behaviour on the list of rows.
-/

/-- Haversine great-circle distance in miles, source lines 17-23:
with R = 3958.7613, p = pi/180, dlat = (lat2-lat1)*p, dlon = (lon2-lon1)*p,
a = 0.5 - cos(dlat)/2 + cos(lat1*p)*cos(lat2*p)*(1 - cos(dlon))/2,
the result is 2*R*asin(sqrt(max 0 a)). -/
noncomputable def miles_distance (lat1 lon1 lat2 lon2 : ℝ) : ℝ :=
  let R : ℝ := 3958.7613
  let p : ℝ := Real.pi / 180.0
  let dlat : ℝ := (lat2 - lat1) * p
  let dlon : ℝ := (lon2 - lon1) * p
  let a : ℝ := 0.5 - Real.cos dlat / 2 +
    Real.cos (lat1 * p) * Real.cos (lat2 * p) * (1 - Real.cos dlon) / 2
  2 * R * Real.arcsin (Real.sqrt (max 0.0 a))

/-- Model of Python str.lower() (source uses .lower() on headers and on the
lookup values): lowercase every character. Char.toLower covers the ASCII
letters, which is the alphabet of every header and key the program compares. -/
def strLower (s : String) : String := ⟨s.data.map Char.toLower⟩

/-- Model of Python str.strip() (source line 30): drop leading and trailing
whitespace. -/
def strTrim (s : String) : String :=
  ⟨((s.data.dropWhile Char.isWhitespace).reverse.dropWhile Char.isWhitespace).reverse⟩

/-- Raw tabular input of the normalizer: a header list and row-major cells.
Cell contents are opaque to `normalize_columns` (it only reads headers), so
cells are modelled as strings. -/
structure RawDF where
  headers : List String
  rows : List (List String)
deriving DecidableEq

/-- Content of the ValueError raised at source line 62 (the spec's SchemaError):
the list of missing required canonical columns and the list of columns found. -/
structure SchemaError where
  missing : List String
  found : List String
deriving DecidableEq

/-- Model of the dict comprehension at source line 32,
cols_lower = \x7bc.lower(): c for c in df.columns\x7d: maps a lowercased key to
the LAST header with that lowercase form (later dict insertions win). -/
def lowerLookup (hs : List String) (key : String) : Option String :=
  hs.foldl (fun acc c => if strLower c = key then some c else acc) none

/-- Model of one candidate loop of `normalize_columns` (source lines 35-50):
if the canonical name is already a column, the guard blocks every candidate;
otherwise the first candidate present in cols_lower is mapped to the canonical
name and the loop breaks. Returns the singleton rename pair, or nothing. -/
def resolveField (hs : List String) (canonical : String) (cands : List String) :
    List (String × String) :=
  if hs.contains canonical then []
  else
    match cands.findSome? (fun cand => lowerLookup hs cand) with
    | some orig => [(orig, canonical)]
    | none => []

/-- Model of source lines 53-54: the optional rename of an "out of town" header
(case-insensitive, no guard) to OT. -/
def otField (hs : List String) : List (String × String) :=
  match lowerLookup hs "out of town" with
  | some orig => [(orig, "OT")]
  | none => []

/-- Model of the col_map dict built at source lines 31-54. The four loops hit
disjoint candidate sets, so the dict is faithfully a concatenation of the four
(at most singleton) association lists. -/
def colMap (hs : List String) : List (String × String) :=
  resolveField hs "Sub Name" ["sub name", "sub_name", "name"] ++
  resolveField hs "Lattitude" ["lattitude", "latitude", "lat"] ++
  resolveField hs "Longitude" ["longitude", "long", "lng", "lon"] ++
  otField hs

/-- Model of df.rename(columns=col_map) at source line 57: every header that is
a key of the map is replaced by its image, all other headers are kept. -/
def applyRename (hs : List String) (m : List (String × String)) : List String :=
  hs.map (fun h => ((m.lookup h).getD h))

/-- Required canonical columns, source line 59. -/
def requiredColumns : List String := ["Sub Name", "Lattitude", "Longitude"]

/-- Model of source lines 64-68: df[name] = "" guarded by name not in
df.columns, i.e. append the header and a blank cell at the end of every row. -/
def addColumn (df : RawDF) (name : String) : RawDF :=
  if df.headers.contains name then df
  else ⟨df.headers ++ [name], df.rows.map (fun row => row ++ [""])⟩

/-- Model of `normalize_columns` (source lines 25-70) including its effect on
the caller's object. The first component is the state of the CALLER's data
frame after the call; the second is the raised error or the returned frame.

Aliasing, traced from the source: line 30 reassigns df.columns in place, so the
caller's headers are always whitespace-stripped; line 57 rebinds df to a COPY
produced by rename exactly when col_map is non-empty, so the column additions of
lines 64-68 land on the caller's object exactly when col_map is empty; the
ValueError of line 62 is raised before any column addition. -/
def normalize_columns (df : RawDF) : RawDF × Except SchemaError RawDF :=
  let stripped : RawDF := ⟨df.headers.map strTrim, df.rows⟩
  let m := colMap stripped.headers
  let renamed : RawDF :=
    if m.isEmpty then stripped else ⟨applyRename stripped.headers m, stripped.rows⟩
  let missing := requiredColumns.filter (fun c => !(renamed.headers.contains c))
  if missing.isEmpty then
    let final := addColumn (addColumn renamed "OT") "Sub"
    (if m.isEmpty then final else stripped, Except.ok final)
  else
    (stripped, Except.error ⟨missing, renamed.headers⟩)

/-- Headers of the frame on which the required-column check of source lines
59-62 runs: caller's headers stripped, then renamed through col_map. (When
col_map is empty the rename is the identity, so this is also correct there.) -/
def renamedHeaders (df : RawDF) : List String :=
  applyRename (df.headers.map strTrim) (colMap (df.headers.map strTrim))

/-- One row of the canonical table consumed by `calculate_nearby`: the columns
Sub, Sub Name, OT, City/State, Lattitude, Longitude produced by load_excel. -/
structure Record where
  sub : String
  subName : String
  ot : String
  cityState : String
  lat : ℝ
  lon : ℝ

/-- One row of the result frame of `calculate_nearby` (the dict built at source
lines 129-137, also the shape of the center frame of lines 147-155). -/
structure NearbyEntry where
  sub : String
  subName : String
  ot : String
  cityState : String
  dist : ℝ
  lat : ℝ
  lon : ℝ

/-- Result data frame: its column order (observable metadata that differs
between the two empty outcomes of `calculate_nearby`) and its rows. -/
structure ResultFrame where
  columns : List String
  entries : List NearbyEntry

/-- Column order of the no-match empty frame of source line 117, identical to
the dict insertion order of source lines 129-137. -/
def resultColumns : List String :=
  ["Sub", "Sub Name", "OT", "City/State", "Distance (mi)", "Lattitude", "Longitude"]

/-- Column order of the found-but-nothing-kept empty frame of source line 144:
the first two columns are swapped relative to resultColumns. -/
def emptySortColumns : List String :=
  ["Sub Name", "Sub", "OT", "City/State", "Distance (mi)", "Lattitude", "Longitude"]

/-- Field used for the lookup, source lines 111-114: the Sub column when
search_by == "sub", otherwise the Sub Name column. -/
def lookupKey (searchBy : String) (r : Record) : String :=
  if searchBy = "sub" then r.sub else r.subName

/-- Model of rows = df.index[mask].tolist() (source lines 112/114): the list of
(position, row) pairs whose lookup field, lowercased, equals the lowercased
target value. -/
def matchingRows (df : List Record) (targetValue searchBy : String) :
    List (ℕ × Record) :=
  df.enum.filter (fun jr => strLower (lookupKey searchBy jr.2) == strLower targetValue)

/-- Result row built from a table row and its computed distance, source lines
129-137. -/
def mkEntry (r : Record) (d : ℝ) : NearbyEntry :=
  { sub := r.sub, subName := r.subName, ot := r.ot, cityState := r.cityState,
    dist := d, lat := r.lat, lon := r.lon }

/-- Center frame row of source lines 147-155: the matched row's fields with the
distance pinned to 0.0. -/
def centerEntry (r : Record) : NearbyEntry :=
  { sub := r.sub, subName := r.subName, ot := r.ot, cityState := r.cityState,
    dist := 0.0, lat := r.lat, lon := r.lon }

/-- Model of the loop at source lines 123-137: iterate rows with their
positions, skip position i (the matched center), compute the distance to the
center coordinate, and keep rows with distance <= radius_miles (inclusive). -/
noncomputable def keptRows (df : List Record) (i : ℕ) (r0 : Record)
    (radiusMiles : ℝ) : List NearbyEntry :=
  df.enum.filterMap (fun jr =>
    if jr.1 = i then none
    else
      let d := miles_distance r0.lat r0.lon jr.2.lat jr.2.lon
      if d ≤ radiusMiles then some (mkEntry jr.2 d) else none)

/-- Model of out.sort_values("Distance (mi)", ascending=True) at source line
142 as a comparison sort on the distance key. pandas' default sort kind does
not fix the relative order of exactly tied keys, so the model is faithful up to
tie order; every property proved below depends on the sorted output only
through sortedness and the underlying multiset of rows. -/
noncomputable def sortByDistance (l : List NearbyEntry) : List NearbyEntry :=
  l.mergeSort (fun a b => decide (a.dist ≤ b.dist))

/-- Model of `calculate_nearby` (source lines 110-157). Notes kept from the
source: rows[0] is the first matching position; the condition of line 141
(out is non-empty and has the distance column) is equivalent to out_rows being
non-empty, because a frame built from a non-empty list of those dicts always
has the Distance (mi) column; line 144 rebuilds an empty frame with the
swapped column order emptySortColumns. -/
noncomputable def calculate_nearby (df : List Record) (targetValue : String)
    (radiusMiles : ℝ) (searchBy : String) : ResultFrame × Option NearbyEntry :=
  match matchingRows df targetValue searchBy with
  | [] => (⟨resultColumns, []⟩, none)
  | (i, r0) :: _ =>
    let outRows := keptRows df i r0 radiusMiles
    let centerPoint := centerEntry r0
    if outRows.isEmpty then (⟨emptySortColumns, []⟩, some centerPoint)
    else (⟨resultColumns, sortByDistance outRows⟩, some centerPoint)

/-- Identity of the haversine formula: the distance of a coordinate to itself
is exactly 0 (a evaluates to 0, and asin (sqrt 0) = 0). -/
theorem miles_distance_self (lat lon : ℝ) : miles_distance lat lon lat lon = 0 := by
  unfold miles_distance
  dsimp only
  have ha : (0.5 : ℝ) - Real.cos ((lat - lat) * (Real.pi / 180.0)) / 2 +
      Real.cos (lat * (Real.pi / 180.0)) * Real.cos (lat * (Real.pi / 180.0)) *
        (1 - Real.cos ((lon - lon) * (Real.pi / 180.0))) / 2 = 0 := by
    norm_num [Real.cos_zero]
  rw [ha]
  norm_num [Real.sqrt_zero, Real.arcsin_zero]

/-- Symmetry of the haversine formula: cos is even, so swapping the two
coordinates leaves a, and hence the distance, unchanged. -/
theorem miles_distance_comm (lat1 lon1 lat2 lon2 : ℝ) :
    miles_distance lat1 lon1 lat2 lon2 = miles_distance lat2 lon2 lat1 lon1 := by
  unfold miles_distance
  dsimp only
  have h1 : (lat1 - lat2) * (Real.pi / 180.0) = -((lat2 - lat1) * (Real.pi / 180.0)) := by
    ring
  have h2 : (lon1 - lon2) * (Real.pi / 180.0) = -((lon2 - lon1) * (Real.pi / 180.0)) := by
    ring
  rw [h1, h2, Real.cos_neg, Real.cos_neg,
    mul_comm (Real.cos (lat2 * (Real.pi / 180.0))) (Real.cos (lat1 * (Real.pi / 180.0)))]

/-- Sorting model: the sorted output is a permutation of its input. -/
theorem sortByDistance_perm (l : List NearbyEntry) : (sortByDistance l).Perm l :=
  List.mergeSort_perm l _

/-- Sorting model: the output is pairwise ascending in the distance key. -/
theorem sortByDistance_sorted (l : List NearbyEntry) :
    (sortByDistance l).Pairwise (fun a b => a.dist ≤ b.dist) := by
  have h := @List.sorted_mergeSort NearbyEntry
    (fun a b : NearbyEntry => decide (a.dist ≤ b.dist))
    (fun a b c hab hbc => by simp_all; linarith)
    (fun a b => by simp [le_total])
    l
  unfold sortByDistance
  simpa using h

/-- Auxiliary: an empty filtered enumeration means no element satisfies the
row predicate. -/
theorem filter_enumFrom_eq_nil {α : Type*} (p : α → Bool) (l : List α) (k : ℕ)
    (h : (l.enumFrom k).filter (fun jr => p jr.2) = []) : ∀ r ∈ l, ¬ p r := by
  intro r hr
  have hmem : r ∈ (l.enumFrom k).map Prod.snd := by
    rw [List.enumFrom_map_snd]; exact hr
  obtain ⟨jr, hjr, hsnd⟩ := List.mem_map.mp hmem
  have hnot := List.filter_eq_nil_iff.mp h jr hjr
  simpa [hsnd] using hnot

/-- Auxiliary: the head of a filtered enumeration is the first hit — its index
is in range, it satisfies the predicate, and every strictly earlier position
fails the predicate. -/
theorem filter_enumFrom_head {α : Type*} (p : α → Bool) :
    ∀ (l : List α) (k i : ℕ) (r : α) (rest : List (ℕ × α)),
      (l.enumFrom k).filter (fun jr => p jr.2) = (i, r) :: rest →
      k ≤ i ∧ l[i - k]? = some r ∧ p r ∧
        ∀ j r', j < i - k → l[j]? = some r' → ¬ p r' := by
  intro l
  induction l with
  | nil => intro k i r rest h; simp at h
  | cons a l ih =>
    intro k i r rest h
    rw [List.enumFrom_cons] at h
    by_cases hp : p a
    · rw [List.filter_cons_of_pos (by simpa using hp)] at h
      injection h with h1 h2
      injection h1 with hki har
      subst hki; subst har
      refine ⟨le_refl _, ?_, hp, ?_⟩
      · simp [Nat.sub_self]
      · intro j r' hj hg
        omega
    · rw [List.filter_cons_of_neg (by simpa using hp)] at h
      obtain ⟨hk, hget, hpr, hfirst⟩ := ih (k + 1) i r rest h
      refine ⟨by omega, ?_, hpr, ?_⟩
      · have hik : i - k = (i - (k + 1)) + 1 := by omega
        rw [hik]
        simpa using hget
      · intro j r' hj hg
        cases j with
        | zero =>
          have har : r' = a := by simpa using hg.symm
          exact har ▸ hp
        | succ m =>
          exact hfirst m r' (by omega) (by simpa using hg)

/-- Lookup characterization, empty case: the mask of source lines 112/114
selects nothing exactly when no row's lookup field matches case-insensitively. -/
theorem matchingRows_eq_nil_iff (df : List Record) (t s : String) :
    matchingRows df t s = [] ↔
      ∀ r ∈ df, strLower (lookupKey s r) ≠ strLower t := by
  unfold matchingRows
  rw [show df.enum = df.enumFrom 0 from rfl]
  constructor
  · intro h r hr
    have := filter_enumFrom_eq_nil
      (fun r => strLower (lookupKey s r) == strLower t) df 0 h r hr
    simpa using this
  · intro h
    apply List.filter_eq_nil_iff.mpr
    intro jr hjr
    have h2 : jr.2 ∈ df := by
      have hm : jr.2 ∈ (df.enumFrom 0).map Prod.snd := List.mem_map_of_mem _ hjr
      rwa [List.enumFrom_map_snd] at hm
    simpa using h jr.2 h2

/-- Lookup characterization, found case: rows[0] of source line 119 is the row
at the least position whose lookup field matches case-insensitively. -/
theorem matchingRows_head_spec (df : List Record) (t s : String) (i : ℕ)
    (r0 : Record) (rest : List (ℕ × Record))
    (h : matchingRows df t s = (i, r0) :: rest) :
    df[i]? = some r0 ∧ strLower (lookupKey s r0) = strLower t ∧
      ∀ j r', j < i → df[j]? = some r' → strLower (lookupKey s r') ≠ strLower t := by
  unfold matchingRows at h
  rw [show df.enum = df.enumFrom 0 from rfl] at h
  obtain ⟨-, hget, hp, hfirst⟩ := filter_enumFrom_head
    (fun r => strLower (lookupKey s r) == strLower t) df 0 i r0 rest h
  rw [Nat.sub_zero] at hget
  refine ⟨hget, by simpa using hp, ?_⟩
  intro j r' hj hg
  have := hfirst j r' (by omega) hg
  simpa using this

/-- Membership in the kept rows of the loop at source lines 123-137: exactly
the rows at a position other than the matched one whose distance to the center
is within the radius (inclusive). -/
theorem mem_keptRows_iff (df : List Record) (i : ℕ) (r0 : Record) (rad : ℝ)
    (e : NearbyEntry) :
    e ∈ keptRows df i r0 rad ↔
      ∃ j r', j ≠ i ∧ df[j]? = some r' ∧
        miles_distance r0.lat r0.lon r'.lat r'.lon ≤ rad ∧
        e = mkEntry r' (miles_distance r0.lat r0.lon r'.lat r'.lon) := by
  unfold keptRows
  rw [List.mem_filterMap]
  constructor
  · rintro ⟨⟨j, r'⟩, hmem, hf⟩
    rw [List.mk_mem_enum_iff_getElem?] at hmem
    dsimp only at hf
    by_cases hj : j = i
    · rw [if_pos hj] at hf
      exact absurd hf (by simp)
    · rw [if_neg hj] at hf
      by_cases hd : miles_distance r0.lat r0.lon r'.lat r'.lon ≤ rad
      · rw [if_pos hd] at hf
        refine ⟨j, r', hj, hmem, hd, ?_⟩
        exact (Option.some.injEq _ _ |>.mp hf).symm
      · rw [if_neg hd] at hf
        exact absurd hf (by simp)
  · rintro ⟨j, r', hj, hget, hd, he⟩
    refine ⟨(j, r'), ?_, ?_⟩
    · rw [List.mk_mem_enum_iff_getElem?]; exact hget
    · dsimp only
      rw [if_neg hj, if_pos hd, he]

/-- The loop keeps nothing when every non-center row is out of radius. -/
theorem keptRows_eq_nil (df : List Record) (i : ℕ) (r0 : Record) (rad : ℝ)
    (h : ∀ j r', j ≠ i → df[j]? = some r' →
      ¬ miles_distance r0.lat r0.lon r'.lat r'.lon ≤ rad) :
    keptRows df i r0 rad = [] := by
  unfold keptRows
  apply List.filterMap_eq_nil_iff.mpr
  rintro ⟨j, r'⟩ hmem
  rw [List.mk_mem_enum_iff_getElem?] at hmem
  dsimp only
  by_cases hj : j = i
  · rw [if_pos hj]
  · rw [if_neg hj, if_neg (h j r' hj hmem)]

/-- Entries of the returned frame are, up to the sorting permutation, the kept
rows of the loop. -/
theorem calculate_nearby_entries_mem (df : List Record) (t s : String) (rad : ℝ)
    (i : ℕ) (r0 : Record) (rest : List (ℕ × Record))
    (h : matchingRows df t s = (i, r0) :: rest) (e : NearbyEntry) :
    e ∈ (calculate_nearby df t rad s).1.entries ↔ e ∈ keptRows df i r0 rad := by
  unfold calculate_nearby
  rw [h]
  dsimp only
  by_cases hk : (keptRows df i r0 rad).isEmpty
  · rw [if_pos hk]
    have hnil : keptRows df i r0 rad = [] := by simpa using hk
    simp [hnil]
  · rw [if_neg hk]
    exact (sortByDistance_perm _).mem_iff

/-- Case-insensitivity of the lookup: keys with equal lowercasings produce
identical queries end to end. -/
theorem calculate_nearby_key_congr (df : List Record) (t t' : String) (rad : ℝ)
    (s : String) (h : strLower t = strLower t') :
    calculate_nearby df t rad s = calculate_nearby df t' rad s := by
  have hm : matchingRows df t s = matchingRows df t' s := by
    unfold matchingRows
    apply List.filter_congr
    intro x _
    rw [h]
  unfold calculate_nearby
  rw [hm]

/-- C5: for all valid coordinate pairs A and B, the distance function satisfies
symmetry, miles_distance(A,B) == miles_distance(B,A), and identity,
miles_distance(A,A) == 0. -/
theorem miles_distance_symm_and_ident :
    ∀ lat1 lon1 lat2 lon2 : ℝ,
      miles_distance lat1 lon1 lat2 lon2 = miles_distance lat2 lon2 lat1 lon1 ∧
      miles_distance lat1 lon1 lat1 lon1 = 0 :=
  fun lat1 lon1 lat2 lon2 =>
    ⟨miles_distance_comm lat1 lon1 lat2 lon2, miles_distance_self lat1 lon1⟩

/-- C3: for every table, radius, and target key that matches no row under the
chosen lookup field, calculate_nearby returns an empty result set together with
a null center, and does not raise an error (the function is total and returns
the empty frame of source line 117 with center none). -/
theorem calculate_nearby_not_found :
    ∀ (df : List Record) (t s : String) (rad : ℝ),
      (∀ r' ∈ df, strLower (lookupKey s r') ≠ strLower t) →
      calculate_nearby df t rad s = (⟨resultColumns, []⟩, none) := by
  intro df t s rad h
  unfold calculate_nearby
  rw [(matchingRows_eq_nil_iff df t s).mpr h]

/-- Witness for calculate_nearby_not_found at a concrete two-row table and an
absent key. -/
theorem calculate_nearby_not_found_witness :
    (∀ r' ∈ ([⟨"S1", "Alpha", "", "", 0, 0⟩, ⟨"S2", "Beta", "", "", 0, 1⟩] :
        List Record), strLower (lookupKey "name" r') ≠ strLower "Gamma") ∧
      calculate_nearby
        [⟨"S1", "Alpha", "", "", 0, 0⟩, ⟨"S2", "Beta", "", "", 0, 1⟩]
        "Gamma" 15 "name" = (⟨resultColumns, []⟩, none) :=
  ⟨by decide, calculate_nearby_not_found _ _ _ _ (by decide)⟩

/-- C2: for every table and target key, target resolution in calculate_nearby
selects the first row in original table order whose chosen lookup field (code
for search_by "sub", identifier otherwise) equals the target key after
lowercasing both sides — exact match only — and keys equal up to letter case
resolve identically. -/
theorem calculate_nearby_lookup_first_and_case_insensitive :
    ∀ (df : List Record) (t s : String) (rad : ℝ),
      (∀ c, (calculate_nearby df t rad s).2 = some c →
        ∃ (i : ℕ) (r0 : Record), df[i]? = some r0 ∧ c = centerEntry r0 ∧
          strLower (lookupKey s r0) = strLower t ∧
          ∀ (j : ℕ) (r' : Record), j < i → df[j]? = some r' →
            strLower (lookupKey s r') ≠ strLower t) ∧
      ((calculate_nearby df t rad s).2 = none →
        ∀ r' ∈ df, strLower (lookupKey s r') ≠ strLower t) ∧
      (∀ t', strLower t = strLower t' →
        calculate_nearby df t rad s = calculate_nearby df t' rad s) := by
  intro df t s rad
  refine ⟨?_, ?_, ?_⟩
  · intro c hc
    cases hm : matchingRows df t s with
    | nil =>
      unfold calculate_nearby at hc
      rw [hm] at hc
      simp at hc
    | cons p rest =>
      obtain ⟨i, r0⟩ := p
      obtain ⟨hget, hkey, hfirst⟩ := matchingRows_head_spec df t s i r0 rest hm
      refine ⟨i, r0, hget, ?_, hkey, hfirst⟩
      unfold calculate_nearby at hc
      rw [hm] at hc
      dsimp only at hc
      by_cases hk : (keptRows df i r0 rad).isEmpty
      · rw [if_pos hk] at hc
        simpa using hc.symm
      · rw [if_neg hk] at hc
        simpa using hc.symm
  · intro hc r' hr'
    cases hm : matchingRows df t s with
    | nil => exact (matchingRows_eq_nil_iff df t s).mp hm r' hr'
    | cons p rest =>
      exfalso
      obtain ⟨i, r0⟩ := p
      unfold calculate_nearby at hc
      rw [hm] at hc
      dsimp only at hc
      by_cases hk : (keptRows df i r0 rad).isEmpty
      · rw [if_pos hk] at hc
        simp at hc
      · rw [if_neg hk] at hc
        simp at hc
  · intro t' h
    exact calculate_nearby_key_congr df t t' rad s h

/-- Witness for calculate_nearby_lookup_first_and_case_insensitive: keys
"Main St" and "main st" produce identical results on a concrete table. -/
theorem calculate_nearby_lookup_witness :
    strLower "Main St" = strLower "main st" ∧
      calculate_nearby [⟨"S1", "Main St", "", "", 0, 0⟩] "Main St" 15 "name" =
        calculate_nearby [⟨"S1", "Main St", "", "", 0, 0⟩] "main st" 15 "name" :=
  ⟨by decide,
    (calculate_nearby_lookup_first_and_case_insensitive
      [⟨"S1", "Main St", "", "", 0, 0⟩] "Main St" "name" 15).2.2
      "main st" (by decide)⟩

/-- C4: when the lookup resolves to position i, the returned neighbors are
exactly (up to order) the rows at positions other than i that fall within the
radius: every neighbor entry comes from a position other than i (the center row
is excluded by position), and every other row — including a duplicate record at
the same coordinates as the center — is evaluated and is reported at distance 0
when coincident and the radius is nonnegative. -/
theorem calculate_nearby_center_excluded :
    ∀ (df : List Record) (t s : String) (rad : ℝ) (i : ℕ) (r0 : Record)
      (rest : List (ℕ × Record)),
      matchingRows df t s = (i, r0) :: rest →
      (∀ e ∈ (calculate_nearby df t rad s).1.entries,
          ∃ (j : ℕ) (r' : Record), j ≠ i ∧ df[j]? = some r' ∧
            e = mkEntry r' (miles_distance r0.lat r0.lon r'.lat r'.lon)) ∧
      (∀ (j : ℕ) (r' : Record), j ≠ i → df[j]? = some r' →
          miles_distance r0.lat r0.lon r'.lat r'.lon ≤ rad →
          mkEntry r' (miles_distance r0.lat r0.lon r'.lat r'.lon) ∈
            (calculate_nearby df t rad s).1.entries) ∧
      (∀ (j : ℕ) (r' : Record), j ≠ i → df[j]? = some r' →
          r'.lat = r0.lat → r'.lon = r0.lon → 0 ≤ rad →
          mkEntry r' 0 ∈ (calculate_nearby df t rad s).1.entries) := by
  intro df t s rad i r0 rest hm
  have hmem := calculate_nearby_entries_mem df t s rad i r0 rest hm
  refine ⟨?_, ?_, ?_⟩
  · intro e he
    obtain ⟨j, r', hj, hget, -, he'⟩ :=
      (mem_keptRows_iff df i r0 rad e).mp ((hmem e).mp he)
    exact ⟨j, r', hj, hget, he'⟩
  · intro j r' hj hget hd
    exact (hmem _).mpr
      ((mem_keptRows_iff df i r0 rad _).mpr ⟨j, r', hj, hget, hd, rfl⟩)
  · intro j r' hj hget hlat hlon hrad
    have hd0 : miles_distance r0.lat r0.lon r'.lat r'.lon = 0 := by
      rw [hlat, hlon]
      exact miles_distance_self r0.lat r0.lon
    have hmem0 := (hmem (mkEntry r' (miles_distance r0.lat r0.lon r'.lat r'.lon))).mpr
      ((mem_keptRows_iff df i r0 rad _).mpr
        ⟨j, r', hj, hget, by rw [hd0]; exact hrad, rfl⟩)
    rwa [hd0] at hmem0

/-- Witness for calculate_nearby_center_excluded: a two-row table whose second
row duplicates the center's coordinates; the duplicate is reported at
distance 0. -/
theorem calculate_nearby_center_excluded_witness :
    matchingRows [⟨"S1", "Alpha", "", "", 0, 0⟩, ⟨"S2", "Dup", "", "", 0, 0⟩]
        "Alpha" "name" = [(0, ⟨"S1", "Alpha", "", "", 0, 0⟩)] ∧
      mkEntry ⟨"S2", "Dup", "", "", 0, 0⟩ 0 ∈
        (calculate_nearby [⟨"S1", "Alpha", "", "", 0, 0⟩, ⟨"S2", "Dup", "", "", 0, 0⟩]
          "Alpha" 10 "name").1.entries :=
  ⟨rfl,
    (calculate_nearby_center_excluded
      [⟨"S1", "Alpha", "", "", 0, 0⟩, ⟨"S2", "Dup", "", "", 0, 0⟩]
      "Alpha" "name" 10 0 ⟨"S1", "Alpha", "", "", 0, 0⟩ [] rfl).2.2
      1 ⟨"S2", "Dup", "", "", 0, 0⟩ (by decide) rfl rfl rfl (by norm_num)⟩

/-- C6: for every table, target key and radii r1 <= r2, every row included in
the result for r1 is also included for r2 (the radius filter is monotone), and
the boundary is inclusive: a non-center row's entry is in the result exactly
when its distance is <= the radius. -/
theorem calculate_nearby_radius_mono :
    ∀ (df : List Record) (t s : String) (r1 r2 : ℝ), r1 ≤ r2 →
      (∀ e ∈ (calculate_nearby df t r1 s).1.entries,
          e ∈ (calculate_nearby df t r2 s).1.entries) ∧
      (∀ (i : ℕ) (r0 : Record) (rest : List (ℕ × Record)),
        matchingRows df t s = (i, r0) :: rest →
        ∀ (j : ℕ) (r' : Record), j ≠ i → df[j]? = some r' →
          (mkEntry r' (miles_distance r0.lat r0.lon r'.lat r'.lon) ∈
              (calculate_nearby df t r1 s).1.entries ↔
            miles_distance r0.lat r0.lon r'.lat r'.lon ≤ r1)) := by
  intro df t s r1 r2 h12
  constructor
  · intro e he
    cases hm : matchingRows df t s with
    | nil =>
      have hnil : (calculate_nearby df t r1 s).1.entries = [] := by
        unfold calculate_nearby
        rw [hm]
      rw [hnil] at he
      simp at he
    | cons p rest =>
      obtain ⟨i, r0⟩ := p
      obtain ⟨j, r', hj, hget, hd, he'⟩ :=
        (mem_keptRows_iff df i r0 r1 e).mp
          ((calculate_nearby_entries_mem df t s r1 i r0 rest hm e).mp he)
      exact (calculate_nearby_entries_mem df t s r2 i r0 rest hm e).mpr
        ((mem_keptRows_iff df i r0 r2 e).mpr
          ⟨j, r', hj, hget, le_trans hd h12, he'⟩)
  · intro i r0 rest hm j r' hj hget
    constructor
    · intro he
      obtain ⟨j2, r2', hj2, hget2, hd2, heq⟩ :=
        (mem_keptRows_iff df i r0 r1 _).mp
          ((calculate_nearby_entries_mem df t s r1 i r0 rest hm _).mp he)
      have hdd : miles_distance r0.lat r0.lon r'.lat r'.lon =
          miles_distance r0.lat r0.lon r2'.lat r2'.lon :=
        congrArg NearbyEntry.dist heq
      rw [hdd]
      exact hd2
    · intro hd
      exact (calculate_nearby_entries_mem df t s r1 i r0 rest hm _).mpr
        ((mem_keptRows_iff df i r0 r1 _).mpr ⟨j, r', hj, hget, hd, rfl⟩)

/-- Witness for calculate_nearby_radius_mono at radii 5 <= 10 on a concrete
table with a coincident second row. -/
theorem calculate_nearby_radius_mono_witness :
    (5 : ℝ) ≤ 10 ∧
      (mkEntry ⟨"S2", "Dup", "", "", 0, 0⟩ (miles_distance 0 0 0 0) ∈
          (calculate_nearby
            [⟨"S1", "Alpha", "", "", 0, 0⟩, ⟨"S2", "Dup", "", "", 0, 0⟩]
            "Alpha" 5 "name").1.entries ↔
        miles_distance 0 0 0 0 ≤ 5) :=
  ⟨by norm_num,
    (calculate_nearby_radius_mono
      [⟨"S1", "Alpha", "", "", 0, 0⟩, ⟨"S2", "Dup", "", "", 0, 0⟩]
      "Alpha" "name" 5 10 (by norm_num)).2
      0 ⟨"S1", "Alpha", "", "", 0, 0⟩ [] rfl
      1 ⟨"S2", "Dup", "", "", 0, 0⟩ (by decide) rfl⟩

/-- C10: the two empty outcomes of calculate_nearby carry different column
orders: a failed lookup returns the empty frame of source line 117 with columns
(Sub, Sub Name, ...), while a successful lookup with no row in radius returns
the empty frame of source line 144 with columns (Sub Name, Sub, ...) — the
first two columns swapped. -/
theorem calculate_nearby_empty_frame_columns :
    ∀ (df : List Record) (t s : String) (rad : ℝ),
      (matchingRows df t s = [] →
        (calculate_nearby df t rad s).1 =
          ⟨["Sub", "Sub Name", "OT", "City/State", "Distance (mi)",
            "Lattitude", "Longitude"], []⟩) ∧
      (∀ (i : ℕ) (r0 : Record) (rest : List (ℕ × Record)),
        matchingRows df t s = (i, r0) :: rest →
        (∀ (j : ℕ) (r' : Record), j ≠ i → df[j]? = some r' →
          ¬ miles_distance r0.lat r0.lon r'.lat r'.lon ≤ rad) →
        (calculate_nearby df t rad s).1 =
          ⟨["Sub Name", "Sub", "OT", "City/State", "Distance (mi)",
            "Lattitude", "Longitude"], []⟩) := by
  intro df t s rad
  constructor
  · intro hm
    unfold calculate_nearby
    rw [hm]
    rfl
  · intro i r0 rest hm hout
    have hnil : keptRows df i r0 rad = [] := keptRows_eq_nil df i r0 rad hout
    unfold calculate_nearby
    rw [hm]
    dsimp only
    rw [hnil]
    rfl

/-- Witness for calculate_nearby_empty_frame_columns: both empty outcomes at
concrete inputs (an absent key; then a present key with a negative radius so
that even the coincident second row is filtered out). -/
theorem calculate_nearby_empty_frame_columns_witness :
    (calculate_nearby [⟨"S1", "Alpha", "", "", 0, 0⟩, ⟨"S2", "Dup", "", "", 0, 0⟩]
        "Gamma" 15 "name").1 =
      ⟨["Sub", "Sub Name", "OT", "City/State", "Distance (mi)",
        "Lattitude", "Longitude"], []⟩ ∧
    (calculate_nearby [⟨"S1", "Alpha", "", "", 0, 0⟩, ⟨"S2", "Dup", "", "", 0, 0⟩]
        "Alpha" (-1) "name").1 =
      ⟨["Sub Name", "Sub", "OT", "City/State", "Distance (mi)",
        "Lattitude", "Longitude"], []⟩ := by
  constructor
  · exact (calculate_nearby_empty_frame_columns
      [⟨"S1", "Alpha", "", "", 0, 0⟩, ⟨"S2", "Dup", "", "", 0, 0⟩]
      "Gamma" "name" 15).1 rfl
  · refine (calculate_nearby_empty_frame_columns
      [⟨"S1", "Alpha", "", "", 0, 0⟩, ⟨"S2", "Dup", "", "", 0, 0⟩]
      "Alpha" "name" (-1)).2 0 ⟨"S1", "Alpha", "", "", 0, 0⟩
      [] rfl ?_
    intro j r' hj hget
    match j, hget with
    | 0, hget => exact absurd rfl hj
    | 1, hget =>
      have hr : (⟨"S2", "Dup", "", "", 0, 0⟩ : Record) = r' := by
        simpa using hget
      subst hr
      show ¬ miles_distance 0 0 0 0 ≤ -1
      rw [miles_distance_self 0 0]
      norm_num
    | (m + 2), hget => simp at hget

/-- Renaming through an empty col_map is the identity on headers. -/
theorem applyRename_nil (hs : List String) : applyRename hs [] = hs := by
  simp [applyRename]

/-- The frame the required-column check of source lines 59-62 runs on has
headers renamedHeaders and the caller's rows, whether or not a rename
happened. -/
theorem renamed_frame_eq (df : RawDF) :
    (if (colMap (df.headers.map strTrim)).isEmpty then
        (⟨df.headers.map strTrim, df.rows⟩ : RawDF)
      else
        ⟨applyRename (df.headers.map strTrim) (colMap (df.headers.map strTrim)),
          df.rows⟩) = ⟨renamedHeaders df, df.rows⟩ := by
  unfold renamedHeaders
  by_cases hmp : (colMap (df.headers.map strTrim)).isEmpty
  · have hm0 : colMap (df.headers.map strTrim) = [] := by simpa using hmp
    rw [if_pos hmp, hm0, applyRename_nil]
  · rw [if_neg hmp]

/-- C7: whenever some required canonical column (Sub Name, Lattitude,
Longitude) cannot be resolved from the headers, normalize_columns raises the
error of source line 62 carrying exactly the missing required columns (in the
fixed order of the required list) and the headers of the checked frame, and
returns no table at all. -/
theorem normalize_columns_schema_error :
    ∀ df : RawDF,
      (∃ c ∈ requiredColumns, ¬ (renamedHeaders df).contains c) →
      (normalize_columns df).2 =
        Except.error
          ⟨requiredColumns.filter (fun c => !(renamedHeaders df).contains c),
            renamedHeaders df⟩ ∧
      ∀ t, (normalize_columns df).2 ≠ Except.ok t := by
  intro df hmiss
  have hne : (requiredColumns.filter
      (fun c => !(renamedHeaders df).contains c)).isEmpty = false := by
    obtain ⟨c, hc, hnc⟩ := hmiss
    have hcmem : c ∈ requiredColumns.filter
        (fun c => !(renamedHeaders df).contains c) := by
      rw [List.mem_filter]
      exact ⟨hc, by simpa using hnc⟩
    cases hfe : (requiredColumns.filter
        (fun c => !(renamedHeaders df).contains c)).isEmpty
    · rfl
    · exfalso
      have hfnil : requiredColumns.filter
          (fun c => !(renamedHeaders df).contains c) = [] := by
        simpa using hfe
      rw [hfnil] at hcmem
      simp at hcmem
  have herr : (normalize_columns df).2 =
      Except.error
        ⟨requiredColumns.filter (fun c => !(renamedHeaders df).contains c),
          renamedHeaders df⟩ := by
    unfold normalize_columns
    dsimp only
    rw [renamed_frame_eq df]
    dsimp only
    rw [hne]
    rfl
  refine ⟨herr, ?_⟩
  intro t h
  rw [herr] at h
  exact Except.noConfusion h

/-- Witness for normalize_columns_schema_error: a table with headers
Sub Name and lat resolves latitude but not longitude; the error names exactly
Longitude and lists the checked headers. -/
theorem normalize_columns_schema_error_witness :
    (∃ c ∈ requiredColumns,
        ¬ (renamedHeaders ⟨["Sub Name", "lat"], [["a", "1"]]⟩).contains c) ∧
      (normalize_columns ⟨["Sub Name", "lat"], [["a", "1"]]⟩).2 =
        Except.error ⟨["Longitude"], ["Sub Name", "Lattitude"]⟩ := by
  constructor
  · decide
  · have h :=
      (normalize_columns_schema_error ⟨["Sub Name", "lat"], [["a", "1"]]⟩
        (by decide)).1
    rw [h]
    rfl

/-- C8: the latitude column is resolved by the first case-insensitive match in
the priority order lattitude, latitude, lat. A table whose only
coordinate-name header is the misspelled form produces the same normalized
output as the same table with the correct spelling, and when several
candidates are present the misspelled form wins and the others are left
untouched. -/
theorem normalize_columns_lattitude_priority :
    ∀ rows : List (List String),
      (normalize_columns ⟨["Sub Name", "Lattitude", "Longitude"], rows⟩).2 =
        (normalize_columns ⟨["Sub Name", "Latitude", "Longitude"], rows⟩).2 ∧
      (normalize_columns
          ⟨["Sub Name", "LATTITUDE", "Latitude", "Lat", "Longitude"], rows⟩).2 =
        Except.ok
          ⟨["Sub Name", "Lattitude", "Latitude", "Lat", "Longitude", "OT", "Sub"],
            (rows.map (fun row => row ++ [""])).map (fun row => row ++ [""])⟩ := by
  intro rows
  exact ⟨rfl, rfl⟩

/-- Counterexample to C9 as stated: normalize_columns is not a pure transform.
On an already-canonical table no rename happens, so df is still the caller's
object at source lines 64-68 and the default OT and Sub columns are added to
the caller's table. -/
theorem normalize_columns_not_pure_cex :
    (normalize_columns
        ⟨["Sub Name", "Lattitude", "Longitude"], [["a", "1", "2"]]⟩).1 ≠
      ⟨["Sub Name", "Lattitude", "Longitude"], [["a", "1", "2"]]⟩ := by
  decide

/-- Value of normalize_columns when no rename happens (col_map empty): the
renamed frame is the stripped caller frame itself. -/
theorem normalize_columns_no_rename (df : RawDF)
    (hm : (colMap (df.headers.map strTrim)).isEmpty = true) :
    normalize_columns df =
      (let renamed : RawDF := ⟨df.headers.map strTrim, df.rows⟩
       let missing := requiredColumns.filter (fun c => !(renamed.headers.contains c))
       if missing.isEmpty then
         (addColumn (addColumn renamed "OT") "Sub",
           Except.ok (addColumn (addColumn renamed "OT") "Sub"))
       else (renamed, Except.error ⟨missing, renamed.headers⟩)) := by
  have hm0 : colMap (df.headers.map strTrim) = [] := by simpa using hm
  unfold normalize_columns
  dsimp only
  rw [hm0]
  rfl

/-- C9 amended: the caller's table after normalize_columns. When some header is
renamed (col_map non-empty) the changes stop at the in-place header stripping
of source line 30, because the rename of line 57 rebinds df to a copy; when no
header is renamed, the caller's object is the very frame the function returns,
including the blank OT and Sub columns added at lines 64-68. -/
theorem normalize_columns_caller_after :
    ∀ df : RawDF,
      ((colMap (df.headers.map strTrim)).isEmpty = false →
        (normalize_columns df).1 = ⟨df.headers.map strTrim, df.rows⟩) ∧
      ((colMap (df.headers.map strTrim)).isEmpty = true →
        ∀ t, (normalize_columns df).2 = Except.ok t →
          (normalize_columns df).1 = t) := by
  intro df
  constructor
  · intro hm
    unfold normalize_columns
    dsimp only
    rw [hm]
    split
    · next h => exact Bool.noConfusion h
    · split
      · rfl
      · rfl
  · intro hm t hok
    rw [normalize_columns_no_rename df hm] at hok ⊢
    dsimp only at hok ⊢
    by_cases hmiss : (requiredColumns.filter
        (fun c => !((df.headers.map strTrim).contains c))).isEmpty = true
    · rw [if_pos hmiss] at hok ⊢
      dsimp only at hok
      have ht := Except.ok.injEq .. |>.mp hok
      rw [← ht]
    · rw [if_neg hmiss] at hok
      exact Except.noConfusion hok

/-- Witness for normalize_columns_caller_after: a renaming table whose caller
frame only gets its headers stripped (here they are already stripped), and a
canonical table whose caller frame is the returned frame with OT and Sub
added. -/
theorem normalize_columns_caller_after_witness :
    ((colMap ((["Sub name", "Lattitude", "Longitude"] : List String).map strTrim)).isEmpty
        = false ∧
      (normalize_columns
          ⟨["Sub name", "Lattitude", "Longitude"], [["a", "1", "2"]]⟩).1 =
        ⟨["Sub name", "Lattitude", "Longitude"], [["a", "1", "2"]]⟩) ∧
    ((colMap ((["Sub Name", "Lattitude", "Longitude"] : List String).map strTrim)).isEmpty
        = true ∧
      (normalize_columns
          ⟨["Sub Name", "Lattitude", "Longitude"], [["a", "1", "2"]]⟩).1 =
        ⟨["Sub Name", "Lattitude", "Longitude", "OT", "Sub"],
          [["a", "1", "2", "", ""]]⟩) :=
  ⟨⟨by decide,
      (normalize_columns_caller_after
        ⟨["Sub name", "Lattitude", "Longitude"], [["a", "1", "2"]]⟩).1 (by decide)⟩,
    ⟨by decide,
      (normalize_columns_caller_after
        ⟨["Sub Name", "Lattitude", "Longitude"], [["a", "1", "2"]]⟩).2 (by decide)
        ⟨["Sub Name", "Lattitude", "Longitude", "OT", "Sub"],
          [["a", "1", "2", "", ""]]⟩ rfl⟩⟩
